import Mathlib

/-!
Shallow embedding of the character-device / pseudo-filesystem I/O layer of
the Neon-OS kernel (tty device nodes, stdio FileLike adapters, the
`/proc/self/fd` pseudo-directory and the `getrandom` PRNG service),
together with proofs of the specification's claims about it.

Machine integers are modelled as `Nat` with explicit `% 2 ^ w` at the
points where the source performs a truncating cast or where a fixed-width
shift could wrap.  User memory reachable through an ioctl argument pointer
is modelled as a typed record of the values readable at that pointer under
each interpretation the dispatcher uses, plus a null flag.  The external
buffered reader (`axio::BufReader` over the non-blocking console
transport) is abstracted as an oracle `attempt : Nat → Nat` giving the
number of bytes the k-th buffered non-blocking read obtains; the external
scheduler's `yield_now` is counted rather than executed, and the unbounded
retry loop is given explicit fuel, `none` meaning the loop has not
returned within that fuel.
-/

namespace NeonOS

/-- Error codes of `axerrno::AxError` used by this layer
(`ax_err!(NotFound)`, `ax_err!(PermissionDenied)`, `ax_err!(InvalidInput)`,
`ax_err!(Unsupported)`). -/
inductive AxError where
  | NotFound
  | PermissionDenied
  | InvalidInput
  | Unsupported
deriving DecidableEq, Repr

/-- Error codes of `axerrno::LinuxError` used by this layer. -/
inductive LinuxError where
  | EPERM
deriving DecidableEq, Repr

/-- `axio::PollState`. -/
structure PollState where
  readable : Bool
  writable : Bool
deriving DecidableEq, Repr

/-- `TtyType` from `src/core/src/file/dev/tty.rs`: the role of a `Tty`
device node. -/
inductive TtyType where
  | Stdin
  | Stdout
deriving DecidableEq, Repr

/-! ### termios / winsize (linux_raw_sys::general, asm-generic layout) -/

/-- `linux_raw_sys::general::termios`: four `u32` flag words, the line
discipline byte and the 19-byte control-character table. -/
structure Termios where
  c_iflag : Nat
  c_oflag : Nat
  c_cflag : Nat
  c_lflag : Nat
  c_line : Nat
  c_cc : List Nat
deriving DecidableEq, Repr

/-- `linux_raw_sys::general::winsize`. -/
structure Winsize where
  ws_row : Nat
  ws_col : Nat
  ws_xpixel : Nat
  ws_ypixel : Nat
deriving DecidableEq, Repr

def IMAXBEL : Nat := 0x2000
def IUTF8 : Nat := 0x4000
def IXON : Nat := 0x0400
def IXANY : Nat := 0x0800
def ICRNL : Nat := 0x0100
def BRKINT : Nat := 0x0002
def OPOST : Nat := 0x0001
def ONLCR : Nat := 0x0004
def CREAD : Nat := 0x0080
def HUPCL : Nat := 0x0400
def ISIG : Nat := 0x0001
def ICANON : Nat := 0x0002
def ECHO : Nat := 0x0008
def ECHOE : Nat := 0x0010
def ECHONL : Nat := 0x0040
def IEXTEN : Nat := 0x8000

/-- `TtyState` from `tty.rs`: termios flags, foreground process-group id
and window size. -/
structure TtyState where
  termios : Termios
  pgid : Nat
  winsize : Winsize
deriving DecidableEq, Repr

/-- `TtyState::new()`: the Linux-compatible defaults. -/
def TtyState.new : TtyState where
  termios :=
    { c_iflag := IMAXBEL ||| IUTF8 ||| IXON ||| IXANY ||| ICRNL ||| BRKINT
      c_oflag := OPOST ||| ONLCR
      c_cflag := CREAD ||| HUPCL ||| 0x77
      c_lflag := ISIG ||| ICANON ||| ECHO ||| ECHOE ||| ECHONL ||| IEXTEN
      c_line := 0
      c_cc := [3, 28, 127, 21, 4, 0, 1, 0, 17, 19, 26, 255, 18, 15, 23, 22, 255, 0, 0] }
  pgid := 2
  winsize := { ws_row := 24, ws_col := 140, ws_xpixel := 0, ws_ypixel := 0 }

/-! ### ioctl dispatcher -/

def TCGETS : Nat := 0x5401
def TCSETS : Nat := 0x5402
def TCSETSW : Nat := 0x5403
def TCSETSF : Nat := 0x5404
def TCGETA : Nat := 0x5405
def TIOCGPGRP : Nat := 0x540F
def TIOCSPGRP : Nat := 0x5410
def TIOCGWINSZ : Nat := 0x5413
def TIOCSWINSZ : Nat := 0x5414

/-- User memory reachable through the `*mut u8` ioctl argument: the value
readable at the pointer under each typed interpretation the dispatcher
performs, plus whether the pointer is null. -/
structure UserMem where
  isNull : Bool
  termios : Termios
  u32 : Nat
  winsize : Winsize
deriving DecidableEq, Repr

instance {ε α : Type} [DecidableEq ε] [DecidableEq α] : DecidableEq (Except ε α) := fun x y =>
  match x, y with
  | .ok a, .ok b =>
    if h : a = b then .isTrue (congrArg Except.ok h)
    else .isFalse (fun hh => h (Except.ok.inj hh))
  | .error a, .error b =>
    if h : a = b then .isTrue (congrArg Except.error h)
    else .isFalse (fun hh => h (Except.error.inj hh))
  | .ok _, .error _ => .isFalse (fun hh => Except.noConfusion hh)
  | .error _, .ok _ => .isFalse (fun hh => Except.noConfusion hh)

/-- Outcome of one ioctl: either a result together with the tty state and
user memory after the call, or undefined behaviour (the source
dereferences or `unwrap`s a null pointer on some paths). -/
inductive IoctlOutcome where
  | step (r : Except AxError Int) (s : TtyState) (m : UserMem)
  | undefinedBehavior
deriving DecidableEq, Repr

/-- `TtyState::ioctl` from `tty.rs` lines 65–105. -/
def TtyState.ioctl (s : TtyState) (cmd : Nat) (m : UserMem) : IoctlOutcome :=
  if cmd = TCGETS ∨ cmd = TCGETA then
    if m.isNull then .undefinedBehavior
    else .step (.ok 0) s { m with termios := s.termios }
  else if cmd = TCSETS ∨ cmd = TCSETSW ∨ cmd = TCSETSF then
    if m.isNull then .undefinedBehavior
    else .step (.ok 0) { s with termios := m.termios } m
  else if cmd = TIOCGPGRP then
    if m.isNull then .step (.error .InvalidInput) s m
    else .step (.ok 0) s { m with u32 := s.pgid }
  else if cmd = TIOCSPGRP then
    if m.isNull then .step (.error .InvalidInput) s m
    else .step (.ok 0) { s with pgid := m.u32 } m
  else if cmd = TIOCGWINSZ then
    if m.isNull then .undefinedBehavior
    else .step (.ok 0) s { m with winsize := s.winsize }
  else if cmd = TIOCSWINSZ then
    if m.isNull then .undefinedBehavior
    else .step (.ok 0) { s with winsize := m.winsize } m
  else .step (.error .Unsupported) s m

/-- `TtyStdin::ioctl`: truncates the `usize` command to `u32` and
dispatches on the given state. -/
def TtyStdin.ioctl (s : TtyState) (cmd : Nat) (m : UserMem) : IoctlOutcome :=
  TtyState.ioctl s (cmd % 2 ^ 32) m

/-- `TtyStdout::ioctl`: same dispatch as `TtyStdin::ioctl`. -/
def TtyStdout.ioctl (s : TtyState) (cmd : Nat) (m : UserMem) : IoctlOutcome :=
  TtyState.ioctl s (cmd % 2 ^ 32) m

/-- `Tty::ioctl` from `tty.rs` lines 328–339.  `tty_stdin()` and
`tty_stdout()` build their adapter with `state: Mutex::new(TtyState::new())`
(only the buffered reader is a `static`), so every call dispatches against
a freshly constructed default `TtyState` and the adapter — with any state
change — is dropped when the call returns. -/
def Tty.ioctl (ty : TtyType) (cmd : Nat) (m : UserMem) : IoctlOutcome :=
  match ty with
  | .Stdin => TtyStdin.ioctl TtyState.new cmd m
  | .Stdout => TtyStdout.ioctl TtyState.new cmd m

/-! ### The buffered blocking reader

`Stdin::read_blocked` (`src/api/src/file/stdio.rs` lines 63–76) and
`TtyStdin::read_blocked` (`tty.rs` lines 165–177) are textually identical:
one buffered non-blocking read; return if the buffer is empty or a byte
was obtained; otherwise loop, yielding after every empty re-read.  The
buffered read (`BufReader` over the raw console reader, both external to
this repository at the byte level) is abstracted as `attempt k` = bytes
obtained by the k-th read call; the `Read` contract bounds it by the
destination buffer's length.  The result pairs the returned byte count
with the number of `yield_now` calls made; `none` means the loop has not
returned within `fuel` further read attempts. -/

/-- The retry loop of `read_blocked`: attempt `k`, return on a positive
read, otherwise yield and retry. -/
def readLoop (attempt : Nat → Nat) : Nat → Nat → Option (Nat × Nat)
  | _, 0 => none
  | k, fuel + 1 =>
    if 0 < attempt k then some (attempt k, k - 1)
    else readLoop attempt (k + 1) fuel

/-- `Stdin::read_blocked`. -/
def Stdin.read_blocked (buflen : Nat) (attempt : Nat → Nat) (fuel : Nat) :
    Option (Nat × Nat) :=
  if buflen = 0 ∨ 0 < attempt 0 then some (attempt 0, 0)
  else readLoop attempt 1 fuel

/-- `TtyStdin::read_blocked`: same code as `Stdin::read_blocked`. -/
def TtyStdin.read_blocked (buflen : Nat) (attempt : Nat → Nat) (fuel : Nat) :
    Option (Nat × Nat) :=
  Stdin.read_blocked buflen attempt fuel

/-- One `read` call of the buffered reader the source wraps around the
raw console reader (`axio::BufReader`, external crate; the standard
buffered-reader algorithm): when the internal buffer is empty and the
destination is at least the internal capacity, the call bypasses the
buffer with one direct transport read; otherwise it goes through
`fill_buf` — which performs exactly one transport read when the buffer
holds no unconsumed data, and none when it does — and copies from the
buffer.  `st` is the unconsumed buffered content, `cap > 0` the internal
capacity, `fill` the bytes one non-blocking transport read delivers.
Returns (bytes copied to the destination, remaining buffered content,
transport reads performed). -/
def bufReaderRead (st : List Nat) (cap : Nat) (fill : List Nat)
    (destLen : Nat) : Nat × List Nat × Nat :=
  if st = [] ∧ cap ≤ destLen then
    ((fill.take destLen).length, [], 1)
  else
    let st2 := if st = [] then fill else st
    let hits : Nat := if st = [] then 1 else 0
    (min destLen st2.length, st2.drop (min destLen st2.length), hits)

/-- `read_blocked` on a zero-length destination, with its first buffered
read instrumented: the source issues `self.inner.lock().read(buf)`
*before* the `buf.is_empty()` check and then returns that count at
once.  Result: (returned byte count, yield count, transport reads). -/
def read_blocked_zero_len (st : List Nat) (cap : Nat) (fill : List Nat) :
    Nat × Nat × Nat :=
  ((bufReaderRead st cap fill 0).1, 0, (bufReaderRead st cap fill 0).2.2)

/-! ### Poll -/

/-- `TtyStdin::poll` (`tty.rs` lines 180–201), over the observable state of
the buffered reader: `buffered` unconsumed bytes held in the reader, and a
fresh non-blocking fill obtaining `fill` bytes. -/
def TtyStdin.poll (buffered fill : Nat) : PollState :=
  if 0 < buffered then { readable := true, writable := false }
  else if 0 < fill then { readable := true, writable := false }
  else { readable := false, writable := false }

/-- `TtyStdout::poll` (`tty.rs` lines 217–222). -/
def TtyStdout.poll : PollState :=
  { readable := false, writable := true }

/-- `FileLike::poll` for `Stdin` (`stdio.rs` lines 131–136): constants,
independent of buffer state. -/
def Stdin.poll : PollState :=
  { readable := true, writable := true }

/-- `FileLike::poll` for `Stdout` (`stdio.rs` lines 163–168). -/
def Stdout.poll : PollState :=
  { readable := true, writable := true }

/-- `Tty::poll`: dispatch on the node's role (`tty.rs` lines 315–326). -/
def Tty.poll (ty : TtyType) (buffered fill : Nat) : PollState :=
  match ty with
  | .Stdin => TtyStdin.poll buffered fill
  | .Stdout => TtyStdout.poll

/-- The specification's readability condition, stated in its words: the
buffered reader currently holds unconsumed data, or a fresh non-blocking
fill of the buffer obtains at least one byte.  Kept separate from the
definitions above so that the code's poll results can be compared with
it. -/
def specReadable (buffered fill : Nat) : Bool :=
  decide (0 < buffered) || decide (0 < fill)

/-! ### Role enforcement and the /dev nodes -/

/-- `FileLike::write` for `Stdin` (`stdio.rs` lines 116–118). -/
def Stdin.write (_buf : List Nat) : Except LinuxError Nat :=
  .error .EPERM

/-- `FileLike::read` for `Stdout` (`stdio.rs` lines 144–146). -/
def Stdout.read (_buflen : Nat) : Except LinuxError Nat :=
  .error .EPERM

/-- `Tty::write_at` (`tty.rs` lines 305–313): stdin-role nodes reject
writes; stdout-role nodes write through `console_write_bytes`, which
always reports the full length written. -/
def Tty.write_at (ty : TtyType) (buf : List Nat) : Except AxError Nat :=
  match ty with
  | .Stdin => .error .PermissionDenied
  | .Stdout => .ok buf.length

/-- `Tty::read_at` (`tty.rs` lines 295–303): stdin-role nodes delegate to
the blocking reader; stdout-role nodes reject reads. -/
def Tty.read_at (ty : TtyType) (attempt : Nat → Nat) (fuel buflen : Nat) :
    Option (Except AxError Nat) :=
  match ty with
  | .Stdin => (TtyStdin.read_blocked buflen attempt fuel).map (fun r => .ok r.1)
  | .Stdout => some (.error .PermissionDenied)

/-- `init_devfs` (`src/core/src/file/dev/mod.rs` lines 9–21): the role
with which each `/dev` node is constructed.  `stderr` and `tty` are both
built with `Tty::stdout()`. -/
def init_devfs : List (String × TtyType) :=
  [("stdin", .Stdin), ("stdout", .Stdout), ("stderr", .Stdout), ("tty", .Stdout)]

/-! ### /proc/self/fd (`src/core/src/file/proc/selfs.rs`) -/

/-- Digit accumulator of Rust's `str::parse::<usize>`: consumes decimal
digits left to right, failing on any non-digit. -/
def parseDigitsAux (acc : Nat) : List Char → Option Nat
  | [] => some acc
  | c :: cs =>
    if c.isDigit then parseDigitsAux (acc * 10 + (c.toNat - 48)) cs
    else none

/-- Rust's `str::parse::<usize>` on a 64-bit target: an optional leading
`+`, then one or more decimal digits, value below `2 ^ 64` (the stepwise
`checked_mul`/`checked_add` overflow test fails exactly when the final
value does not fit). -/
def parseUsize (s : String) : Option Nat :=
  let digits : List Char → Option Nat := fun cs =>
    match cs with
    | [] => none
    | _ => (parseDigitsAux 0 cs).bind (fun v => if v < 2 ^ 64 then some v else none)
  match s.data with
  | [] => none
  | '+' :: rest => digits rest
  | cs => digits cs

/-- `SelfFdEntry`: the node returned by a successful `/proc/self/fd`
lookup. -/
structure SelfFdEntry where
  fd : Nat
deriving DecidableEq, Repr

/-- `SelfFdDir::lookup` (`selfs.rs` lines 71–79): parse the name as
`usize` and accept values up to 2. -/
def SelfFdDir.lookup (name : String) : Except AxError SelfFdEntry :=
  match parseUsize name with
  | some fd => if fd ≤ 2 then .ok ⟨fd⟩ else .error .NotFound
  | none => .error .NotFound

/-- The symlink target chosen by `SelfFdEntry::readlink` for an fd
number. -/
def fdPath (fd : Nat) : String :=
  if fd = 0 then "/dev/stdin"
  else if fd = 1 then "/dev/stdout"
  else if fd = 2 then "/dev/stderr"
  else "/dev/null"

/-- `SelfFdEntry::readlink` (`selfs.rs` lines 98–110): copy the target
path into the caller's buffer, truncating to its capacity, and return
the copied length. -/
def SelfFdEntry.readlink (e : SelfFdEntry) (buflen : Nat) : List Char × Nat :=
  let path := (fdPath e.fd).data
  (path.take buflen, min buflen path.length)

/-! ### PRNG service (`src/api/src/imp/random.rs`) -/

def RAND_MAX : Nat := 2147483647

/-- The loop body of `random()`: `ret` is the `u128` accumulator (shifts
wrap modulo `2 ^ 128` as in the source type), `seed` the current `u32`
seed. -/
def randomRounds (ret seed : Nat) : Nat → Nat × Nat
  | 0 => (ret, seed)
  | n + 1 =>
    let s := seed * 48271 % RAND_MAX
    randomRounds ((ret <<< 32) % 2 ^ 128 ||| s) s n

/-- `random()`: reseed from the tick counter (cast to `u32`) when the
stored seed is zero, then four multiplicative rounds accumulated
most-significant-first.  Returns the `u128` result and the seed left in
the global. -/
def random (ticks seed : Nat) : Nat × Nat :=
  let s0 := if seed = 0 then ticks % 2 ^ 32 else seed
  randomRounds 0 s0 4

/-- Little-endian byte decomposition: the first `n` bytes of `v`. -/
def leBytes (n v : Nat) : List Nat :=
  match n with
  | 0 => []
  | n + 1 => v % 256 :: leBytes n (v / 256)

/-- The `chunks_mut(16)` loop of `sys_getrandom`: `k` chunks remain,
`remaining` bytes of the buffer are still to fill, the next `random()`
call reads the tick oracle at index `i`.  Returns the bytes written and
the final seed. -/
def fillChunks (ticks : Nat → Nat) (i seed remaining : Nat) : Nat → List Nat × Nat
  | 0 => ([], seed)
  | k + 1 =>
    let r := random (ticks i) seed
    let chunk := (leBytes 16 r.1).take (min 16 remaining)
    let rest := fillChunks ticks (i + 1) r.2 (remaining - 16) k
    (chunk ++ rest.1, rest.2)

/-- `sys_getrandom` (`random.rs` lines 32–56) on a validated buffer:
returns the bytes written, the seed left in the global, and the reported
length.  `flags` is accepted and unused, as in the source. -/
def sys_getrandom (ticks : Nat → Nat) (seed buflen : Nat) (_flags : Nat) :
    List Nat × Nat × Nat :=
  if buflen = 0 then ([], seed, 0)
  else
    let filled := fillChunks ticks 0 seed buflen ((buflen + 15) / 16)
    (filled.1, filled.2, buflen)

/-- The specification's description of the output stream: the
concatenation of `k` full 16-byte little-endian chunks, chunk `i` taken
from the i-th successive `random()` call. -/
def randChunkSeq (ticks : Nat → Nat) (i seed : Nat) : Nat → List Nat
  | 0 => []
  | k + 1 =>
    let r := random (ticks i) seed
    leBytes 16 r.1 ++ randChunkSeq ticks (i + 1) r.2 k

/-- One round of the multiplicative recurrence performed by `random()`:
`seed = seed * 48271 % 2147483647`. -/
def lcgRound (s : Nat) : Nat := s * 48271 % RAND_MAX

/-- The seed `random()` actually iterates on: the stored seed, replaced
by the tick counter truncated to 32 bits exactly when it is zero. -/
def effSeed (ticks seed : Nat) : Nat :=
  if seed = 0 then ticks % 2 ^ 32 else seed

/-! ## Helper lemmas -/

theorem readLoop_pos (attempt : Nat → Nat) :
    ∀ fuel k n y, readLoop attempt k fuel = some (n, y) → 0 < n := by
  intro fuel
  induction fuel with
  | zero => intro k n y h; exact absurd h (by simp [readLoop])
  | succ fuel ih =>
    intro k n y h
    rw [readLoop] at h
    split at h
    · next hpos => cases h; exact hpos
    · exact ih (k + 1) n y h

theorem readLoop_none (attempt : Nat → Nat) (hz : ∀ k, attempt k = 0) :
    ∀ fuel k, readLoop attempt k fuel = none := by
  intro fuel
  induction fuel with
  | zero => intro k; rfl
  | succ fuel ih =>
    intro k
    rw [readLoop]
    simp only [hz k, Nat.lt_irrefl, if_false]
    exact ih (k + 1)

theorem leBytes_length : ∀ n v, (leBytes n v).length = n := by
  intro n
  induction n with
  | zero => intro v; rfl
  | succ n ih => intro v; simp [leBytes, ih]

theorem randChunkSeq_length (ticks : Nat → Nat) :
    ∀ k i seed, (randChunkSeq ticks i seed k).length = 16 * k := by
  intro k
  induction k with
  | zero => intro i seed; rfl
  | succ k ih =>
    intro i seed
    simp [randChunkSeq, leBytes_length, ih]
    ring

theorem fillChunks_fst (ticks : Nat → Nat) :
    ∀ k i seed remaining, remaining ≤ 16 * k →
      (fillChunks ticks i seed remaining k).1 =
        (randChunkSeq ticks i seed k).take remaining := by
  intro k
  induction k with
  | zero =>
    intro i seed remaining h
    have : remaining = 0 := by omega
    subst this
    rfl
  | succ k ih =>
    intro i seed remaining h
    rw [fillChunks, randChunkSeq]
    simp only [List.take_append_eq_append_take, leBytes_length]
    have h1 : (leBytes 16 (random (ticks i) seed).1).take (min 16 remaining) =
        (leBytes 16 (random (ticks i) seed).1).take remaining := by
      rw [List.take_eq_take]
      simp [leBytes_length]
      omega
    rw [h1, ih (i + 1) (random (ticks i) seed).2 (remaining - 16) (by omega)]

theorem lor_shift_step (a b : Nat) (ha : a < 2 ^ 96) (hb : b < 2 ^ 32) :
    (a <<< 32) % 2 ^ 128 ||| b = a * 2 ^ 32 + b := by
  rw [Nat.shiftLeft_eq, Nat.mod_eq_of_lt (by calc
    a * 2 ^ 32 < 2 ^ 96 * 2 ^ 32 := by
      exact (Nat.mul_lt_mul_right (by norm_num)).mpr ha
    _ = 2 ^ 128 := by norm_num)]
  rw [Nat.mul_comm a (2 ^ 32), ← Nat.mul_add_lt_is_or hb a, Nat.mul_comm (2 ^ 32) a]

/-! ## Claims -/

/-- Claim C3: for every non-empty buffer, a successful return of
`read_blocked` carries a strictly positive byte count — it returns only
once a buffered non-blocking read attempt has obtained at least one
byte — and when no attempt ever obtains a byte the retry loop never
returns, for any amount of fuel.  Holds for both `Stdin::read_blocked`
and `TtyStdin::read_blocked`. -/
theorem read_blocked_positive (buflen : Nat) (attempt : Nat → Nat)
    (fuel : Nat) (h : buflen ≠ 0) :
    (∀ n y, Stdin.read_blocked buflen attempt fuel = some (n, y) → 0 < n) ∧
    ((∀ k, attempt k = 0) → Stdin.read_blocked buflen attempt fuel = none) ∧
    (∀ n y, TtyStdin.read_blocked buflen attempt fuel = some (n, y) → 0 < n) ∧
    ((∀ k, attempt k = 0) → TtyStdin.read_blocked buflen attempt fuel = none) := by
  have main1 : ∀ n y, Stdin.read_blocked buflen attempt fuel = some (n, y) → 0 < n := by
    intro n y hr
    rw [Stdin.read_blocked] at hr
    split at hr
    · next hc =>
      cases hr
      rcases hc with hc | hc
      · exact absurd hc h
      · exact hc
    · exact readLoop_pos attempt fuel 1 n y hr
  have main2 : (∀ k, attempt k = 0) → Stdin.read_blocked buflen attempt fuel = none := by
    intro hz
    rw [Stdin.read_blocked, if_neg (by simp [hz, h]), readLoop_none attempt hz]
  exact ⟨main1, main2, main1, main2⟩

/-- Witness for C3 at a concrete starved input: an 8-byte request whose
read attempts never obtain a byte loops without returning. -/
theorem read_blocked_positive_witness :
    (8 : Nat) ≠ 0 ∧ Stdin.read_blocked 8 (fun _ => 0) 10 = none :=
  ⟨by decide, (read_blocked_positive 8 (fun _ => 0) 10 (by decide)).2.1 (fun _ => rfl)⟩

/-- Counterexample to claim C9 as stated: the source performs the
buffered read *before* the `buf.is_empty()` check, so a zero-length
`read_blocked` on a reader whose internal buffer holds no data performs
one (non-blocking) transport read — the console transport is consulted,
contrary to the claim's "without consulting the underlying console
transport" conjunct.  Concrete input: empty internal buffer, capacity
1024, no pending console input. -/
theorem read_blocked_zero_len_consults :
    read_blocked_zero_len [] 1024 [] = (0, 0, 1) ∧
    (read_blocked_zero_len [] 1024 []).2.2 ≠ 0 :=
  ⟨by decide, by decide⟩

/-- Claim C9 (amended): for a zero-length buffer, `read_blocked` returns
0 immediately — on the first attempt, with zero `yield_now` calls and
without entering the retry loop (any fuel, including none, suffices),
the returned count independent of the transport — but it still issues
the initial buffered read before its emptiness check, and that read
consults the non-blocking console transport exactly once (to refill the
reader's internal buffer) whenever the buffer holds no unconsumed data,
and not at all when it does.  The hypothesis `h` records the `Read`
contract (a read into an empty buffer obtains 0 bytes); `hcap` that the
reader's internal capacity is positive, so the zero-length destination
never takes the direct-bypass branch.  Holds for both
`Stdin::read_blocked` and `TtyStdin::read_blocked`. -/
theorem read_blocked_zero_len_spec (st : List Nat) (cap : Nat)
    (fill : List Nat) (attempt : Nat → Nat) (fuel : Nat)
    (hcap : 0 < cap) (h : attempt 0 = 0) :
    Stdin.read_blocked 0 attempt fuel = some (0, 0) ∧
    TtyStdin.read_blocked 0 attempt fuel = some (0, 0) ∧
    read_blocked_zero_len st cap fill = (0, 0, if st = [] then 1 else 0) := by
  have main : Stdin.read_blocked 0 attempt fuel = some (0, 0) := by
    rw [Stdin.read_blocked, if_pos (Or.inl rfl), h]
  have hnb : ¬ cap ≤ 0 := by omega
  refine ⟨main, main, ?_⟩
  by_cases hst : st = [] <;>
    simp [read_blocked_zero_len, bufReaderRead, hst, hnb]

/-- Witness for C9 (amended) at concrete inputs: a reader holding one
buffered byte, capacity 1024, no transport data, starved attempts, no
fuel. -/
theorem read_blocked_zero_len_spec_witness :
    Stdin.read_blocked 0 (fun _ => 0) 0 = some (0, 0) ∧
    TtyStdin.read_blocked 0 (fun _ => 0) 0 = some (0, 0) ∧
    read_blocked_zero_len [7] 1024 [] = (0, 0, if ([7] : List Nat) = [] then 1 else 0) :=
  read_blocked_zero_len_spec [7] 1024 [] (fun _ => 0) 0 (by decide) rfl

/-- Claim C4: writing through a Stdin-role adapter fails with
permission-denied and reading through a Stdout-role adapter fails with
permission-denied, for every buffer and for every adapter variant: the
`FileLike` `Stdin`/`Stdout` handles (EPERM) and the `Tty` VFS node in
both roles (PermissionDenied). -/
theorem role_enforcement (buf : List Nat) (buflen fuel : Nat)
    (attempt : Nat → Nat) :
    Stdin.write buf = .error .EPERM ∧
    Stdout.read buflen = .error .EPERM ∧
    Tty.write_at .Stdin buf = .error .PermissionDenied ∧
    Tty.read_at .Stdout attempt fuel buflen = some (.error .PermissionDenied) :=
  ⟨rfl, rfl, rfl, rfl⟩

/-- Counterexample to claim C5 as stated: the `FileLike` `Stdin` adapter
reports readable even when the buffered reader holds no data and a fresh
fill obtains no byte, so "readable exactly when data is available" fails
for that adapter variant. -/
theorem stdin_poll_always_readable :
    Stdin.poll.readable = true ∧ specReadable 0 0 = false :=
  ⟨rfl, rfl⟩

/-- Claim C5 (amended): the VFS tty stdin node (`TtyStdin::poll`, and
`Tty::poll` in the Stdin role) reports readable exactly when the buffered
reader holds unconsumed data or a fresh non-blocking fill obtains at
least one byte; every output-role poll reports writable; but the
`FileLike` `Stdin` handle reports readable and writable unconditionally,
regardless of buffer state. -/
theorem poll_semantics (buffered fill : Nat) :
    (TtyStdin.poll buffered fill).readable = specReadable buffered fill ∧
    (Tty.poll .Stdin buffered fill).readable = specReadable buffered fill ∧
    TtyStdout.poll.writable = true ∧
    (Tty.poll .Stdout buffered fill).writable = true ∧
    Stdout.poll.writable = true ∧
    Stdin.poll = { readable := true, writable := true } := by
  have hmain : (TtyStdin.poll buffered fill).readable = specReadable buffered fill := by
    by_cases h1 : 0 < buffered <;> by_cases h2 : 0 < fill <;>
      simp [TtyStdin.poll, specReadable, h1, h2]
  exact ⟨hmain, hmain, rfl, rfl, rfl, rfl⟩

/-- Claim C10: `init_devfs` registers both `/dev/stderr` and `/dev/tty`
as Stdout-role `Tty` nodes, so reading either fails with
permission-denied while writing succeeds through the console path,
reporting the full buffer length. -/
theorem devfs_stderr_tty_roles (buf : List Nat) (buflen fuel : Nat)
    (attempt : Nat → Nat) :
    init_devfs.lookup "stderr" = some .Stdout ∧
    init_devfs.lookup "tty" = some .Stdout ∧
    Tty.read_at .Stdout attempt fuel buflen = some (.error .PermissionDenied) ∧
    Tty.write_at .Stdout buf = .ok buf.length :=
  ⟨by decide, by decide, rfl, rfl⟩

/-- Claim C6: for every command code outside the nine recognised ones and
every argument, the `TtyState` ioctl dispatcher fails with
unsupported-operation, leaving the tty state (termios, pgid, winsize) and
the user memory exactly as they were. -/
theorem ioctl_unknown_cmd (s : TtyState) (m : UserMem) (cmd : Nat)
    (h : cmd ∉ [TCGETS, TCGETA, TCSETS, TCSETSW, TCSETSF, TIOCGPGRP,
      TIOCSPGRP, TIOCGWINSZ, TIOCSWINSZ]) :
    TtyState.ioctl s cmd m = .step (.error .Unsupported) s m := by
  simp only [List.mem_cons, List.not_mem_nil, or_false, not_or] at h
  obtain ⟨h1, h2, h3, h4, h5, h6, h7, h8, h9⟩ := h
  rw [TtyState.ioctl]
  simp [h1, h2, h3, h4, h5, h6, h7, h8, h9]

/-- Witness for C6 at concrete inputs: command `0x5555` on the default
state is rejected unchanged. -/
theorem ioctl_unknown_cmd_witness :
    (0x5555 : Nat) ∉ [TCGETS, TCGETA, TCSETS, TCSETSW, TCSETSF, TIOCGPGRP,
      TIOCSPGRP, TIOCGWINSZ, TIOCSWINSZ] ∧
    TtyState.ioctl TtyState.new 0x5555
        { isNull := false, termios := TtyState.new.termios, u32 := 0,
          winsize := TtyState.new.winsize } =
      .step (.error .Unsupported) TtyState.new
        { isNull := false, termios := TtyState.new.termios, u32 := 0,
          winsize := TtyState.new.winsize } :=
  ⟨by decide,
   ioctl_unknown_cmd TtyState.new
     { isNull := false, termios := TtyState.new.termios, u32 := 0,
       winsize := TtyState.new.winsize } 0x5555 (by decide)⟩

/-- Claim C1 fails on the code: `Tty::ioctl` builds a fresh default
`TtyState` on every call (`tty_stdin()`/`tty_stdout()` only share the
buffered reader `static`, not the state), so a set-termios followed by a
get-termios on the same `/dev` node yields the default termios — not the
struct just set — and likewise for the window size.  This theorem
evaluates the code at the failing input: setting the all-zero termios
`t0` (and winsize `w0`) reports success, yet the following get writes
back the default, which differs from `t0` (and from `w0`). -/
theorem tty_ioctl_set_discarded :
    (Tty.ioctl .Stdin TCSETS
        { isNull := false, termios := Termios.mk 0 0 0 0 0 (List.replicate 19 0),
          u32 := 0, winsize := Winsize.mk 1 2 3 4 } =
      .step (.ok 0)
        { TtyState.new with termios := Termios.mk 0 0 0 0 0 (List.replicate 19 0) }
        { isNull := false, termios := Termios.mk 0 0 0 0 0 (List.replicate 19 0),
          u32 := 0, winsize := Winsize.mk 1 2 3 4 }) ∧
    (Tty.ioctl .Stdin TCGETS
        { isNull := false, termios := Termios.mk 0 0 0 0 0 (List.replicate 19 0),
          u32 := 0, winsize := Winsize.mk 1 2 3 4 } =
      .step (.ok 0) TtyState.new
        { isNull := false, termios := TtyState.new.termios,
          u32 := 0, winsize := Winsize.mk 1 2 3 4 }) ∧
    TtyState.new.termios ≠ Termios.mk 0 0 0 0 0 (List.replicate 19 0) ∧
    (Tty.ioctl .Stdin TIOCSWINSZ
        { isNull := false, termios := Termios.mk 0 0 0 0 0 (List.replicate 19 0),
          u32 := 0, winsize := Winsize.mk 1 2 3 4 } =
      .step (.ok 0) { TtyState.new with winsize := Winsize.mk 1 2 3 4 }
        { isNull := false, termios := Termios.mk 0 0 0 0 0 (List.replicate 19 0),
          u32 := 0, winsize := Winsize.mk 1 2 3 4 }) ∧
    (Tty.ioctl .Stdin TIOCGWINSZ
        { isNull := false, termios := Termios.mk 0 0 0 0 0 (List.replicate 19 0),
          u32 := 0, winsize := Winsize.mk 1 2 3 4 } =
      .step (.ok 0) TtyState.new
        { isNull := false, termios := Termios.mk 0 0 0 0 0 (List.replicate 19 0),
          u32 := 0, winsize := TtyState.new.winsize }) ∧
    TtyState.new.winsize ≠ Winsize.mk 1 2 3 4 ∧
    (Tty.ioctl .Stdout TCGETS
        { isNull := false, termios := Termios.mk 0 0 0 0 0 (List.replicate 19 0),
          u32 := 0, winsize := Winsize.mk 1 2 3 4 } =
      .step (.ok 0) TtyState.new
        { isNull := false, termios := TtyState.new.termios,
          u32 := 0, winsize := Winsize.mk 1 2 3 4 }) := by
  refine ⟨by decide, by decide, by decide, by decide, by decide, by decide, by decide⟩

/-- Counterexample to claim C2 as stated: the name `"00"` is neither
`"0"`, `"1"` nor `"2"`, yet `/proc/self/fd` lookup succeeds on it,
because the source accepts any string that parses as a `usize` at
most 2 — Rust's integer parser admits leading zeros (and a leading
`+`). -/
theorem selffd_lookup_leading_zero :
    SelfFdDir.lookup "00" = .ok ⟨0⟩ ∧
    "00" ≠ "0" ∧ "00" ≠ "1" ∧ "00" ≠ "2" := by
  refine ⟨by decide, by decide, by decide, by decide⟩

/-- Claim C2 (amended): lookup of a name in `/proc/self/fd` succeeds
exactly when the name parses as a Rust `usize` (optional leading `+`,
one or more decimal digits, value below `2 ^ 64`) whose value is at most
2; every other name fails with not-found; and a successful lookup yields
an entry whose readlink produces the matching `/dev/stdin`,
`/dev/stdout` or `/dev/stderr` path (up to the caller's buffer
capacity). -/
theorem selffd_lookup_spec (name : String) :
    ((∃ e, SelfFdDir.lookup name = .ok e) ↔
      (∃ v, parseUsize name = some v ∧ v ≤ 2)) ∧
    ((∀ v, parseUsize name = some v → 2 < v) ∨ parseUsize name = none →
      SelfFdDir.lookup name = .error .NotFound) ∧
    (∀ e, SelfFdDir.lookup name = .ok e →
      parseUsize name = some e.fd ∧ e.fd ≤ 2 ∧
      ∀ buflen,
        (e.fd = 0 → (SelfFdEntry.readlink e buflen).1 = "/dev/stdin".data.take buflen) ∧
        (e.fd = 1 → (SelfFdEntry.readlink e buflen).1 = "/dev/stdout".data.take buflen) ∧
        (e.fd = 2 → (SelfFdEntry.readlink e buflen).1 = "/dev/stderr".data.take buflen)) := by
  refine ⟨?_, ?_, ?_⟩
  · constructor
    · rintro ⟨e, he⟩
      rw [SelfFdDir.lookup] at he
      split at he
      · next v hv =>
        split at he
        · next hle => exact ⟨v, hv, hle⟩
        · exact absurd he (by simp)
      · exact absurd he (by simp)
    · rintro ⟨v, hv, hle⟩
      exact ⟨⟨v⟩, by simp [SelfFdDir.lookup, hv, hle]⟩
  · intro hfail
    rcases hp : parseUsize name with _ | v
    · simp [SelfFdDir.lookup, hp]
    · rcases hfail with hbig | hnone
      · simp [SelfFdDir.lookup, hp, Nat.not_le.mpr (hbig v hp)]
      · rw [hp] at hnone; exact absurd hnone (by simp)
  · intro e he
    rw [SelfFdDir.lookup] at he
    split at he
    · next v hv =>
      split at he
      · next hle =>
        cases he
        refine ⟨hv, hle, ?_⟩
        intro buflen
        refine ⟨?_, ?_, ?_⟩ <;> intro hfd <;> simp only [] at hfd <;> subst hfd <;>
          simp [SelfFdEntry.readlink, fdPath]
      · exact absurd he (by simp)
    · exact absurd he (by simp)

/-- Witness for C2 (amended) at the concrete name `"2"`: lookup succeeds
and its readlink yields `/dev/stderr`. -/
theorem selffd_lookup_spec_witness :
    (SelfFdEntry.readlink ⟨2⟩ 11).1 = "/dev/stderr".data.take 11 :=
  (((selffd_lookup_spec "2").2.2 ⟨2⟩ (by decide)).2.2 11).2.2 rfl

/-- Claim C7: `sys_getrandom` with length 0 succeeds at once, writing no
bytes and leaving the PRNG seed untouched; with a positive length `n` it
writes exactly the first `n` bytes of the concatenation of successive
16-byte little-endian chunks, chunk `i` taken from the i-th `random()`
call (so the final chunk is truncated to the remaining bytes), reports
the full length `n`, and ignores the `flags` argument entirely. -/
theorem getrandom_spec (ticks : Nat → Nat) (seed buflen flags : Nat) :
    sys_getrandom ticks seed 0 flags = ([], seed, 0) ∧
    (buflen ≠ 0 →
      (sys_getrandom ticks seed buflen flags).1 =
        (randChunkSeq ticks 0 seed ((buflen + 15) / 16)).take buflen ∧
      (sys_getrandom ticks seed buflen flags).1.length = buflen ∧
      (sys_getrandom ticks seed buflen flags).2.2 = buflen) ∧
    (∀ flags2, sys_getrandom ticks seed buflen flags2 =
      sys_getrandom ticks seed buflen flags) := by
  refine ⟨rfl, ?_, fun flags2 => rfl⟩
  intro hb
  have hk : buflen ≤ 16 * ((buflen + 15) / 16) := by omega
  have hfst : (sys_getrandom ticks seed buflen flags).1 =
      (randChunkSeq ticks 0 seed ((buflen + 15) / 16)).take buflen := by
    rw [sys_getrandom, if_neg hb]
    exact fillChunks_fst ticks ((buflen + 15) / 16) 0 seed buflen hk
  refine ⟨hfst, ?_, ?_⟩
  · rw [hfst, List.length_take, randChunkSeq_length]
    omega
  · rw [sys_getrandom, if_neg hb]

/-- Witness for C7 at concrete inputs: a 37-byte request with seed 1
yields the first 37 bytes of three successive chunks and reports 37. -/
theorem getrandom_spec_witness :
    (37 : Nat) ≠ 0 ∧
    (sys_getrandom (fun _ => 0) 1 37 5).1 =
      (randChunkSeq (fun _ => 0) 0 1 ((37 + 15) / 16)).take 37 ∧
    (sys_getrandom (fun _ => 0) 1 37 5).1.length = 37 ∧
    (sys_getrandom (fun _ => 0) 1 37 5).2.2 = 37 :=
  ⟨by decide, (getrandom_spec (fun _ => 0) 1 37 5).2.1 (by decide)⟩

/-- Claim C8: `random()` replaces the seed by the tick counter truncated
to 32 bits exactly when the stored seed is zero, then performs four
rounds of `seed = seed * 48271 % 2147483647` and returns the 128-bit
concatenation of the four successive 32-bit seeds, first round most
significant (together with the seed left behind).  The trailing
conjuncts record that each round's `u64` widening product stays below
`2 ^ 64`, so the source computes the recurrence without overflow. -/
theorem random_four_rounds (ticks seed : Nat) (h : seed < 2 ^ 32) :
    random ticks seed =
      (lcgRound (effSeed ticks seed) * 2 ^ 96 +
        lcgRound (lcgRound (effSeed ticks seed)) * 2 ^ 64 +
        lcgRound (lcgRound (lcgRound (effSeed ticks seed))) * 2 ^ 32 +
        lcgRound (lcgRound (lcgRound (lcgRound (effSeed ticks seed)))),
       lcgRound (lcgRound (lcgRound (lcgRound (effSeed ticks seed))))) ∧
    (seed = 0 → effSeed ticks seed = ticks % 2 ^ 32) ∧
    (seed ≠ 0 → effSeed ticks seed = seed) ∧
    effSeed ticks seed * 48271 < 2 ^ 64 ∧
    lcgRound (effSeed ticks seed) * 48271 < 2 ^ 64 ∧
    lcgRound (lcgRound (effSeed ticks seed)) * 48271 < 2 ^ 64 ∧
    lcgRound (lcgRound (lcgRound (effSeed ticks seed))) * 48271 < 2 ^ 64 := by
  set s0 := effSeed ticks seed with hs0def
  set r1 := lcgRound s0 with hr1def
  set r2 := lcgRound r1 with hr2def
  set r3 := lcgRound r2 with hr3def
  set r4 := lcgRound r3 with hr4def
  have hmax : 0 < RAND_MAX := by norm_num [RAND_MAX]
  have hr1 : r1 < 2147483647 := Nat.mod_lt _ hmax
  have hr2 : r2 < 2147483647 := Nat.mod_lt _ hmax
  have hr3 : r3 < 2147483647 := Nat.mod_lt _ hmax
  have hr4 : r4 < 2147483647 := Nat.mod_lt _ hmax
  have hs0 : s0 < 2 ^ 32 := by
    show (if seed = 0 then ticks % 2 ^ 32 else seed) < 2 ^ 32
    split
    · exact Nat.mod_lt _ (by norm_num)
    · exact h
  refine ⟨?_, ?_, ?_, by omega, by omega, by omega, by omega⟩
  case refine_2 => intro h0; rw [hs0def]; simp [effSeed, h0]
  case refine_3 => intro h0; rw [hs0def]; simp [effSeed, h0]
  show randomRounds 0 s0 4 = (r1 * 2 ^ 96 + r2 * 2 ^ 64 + r3 * 2 ^ 32 + r4, r4)
  have step : randomRounds 0 s0 4 =
      ((((((((0 <<< 32) % 2 ^ 128 ||| r1) <<< 32) % 2 ^ 128 ||| r2) <<< 32) % 2 ^ 128
          ||| r3) <<< 32) % 2 ^ 128 ||| r4, r4) := rfl
  have e1 : (0 <<< 32) % 2 ^ 128 ||| r1 = r1 := by simp
  have e2 : (r1 <<< 32) % 2 ^ 128 ||| r2 = r1 * 2 ^ 32 + r2 :=
    lor_shift_step r1 r2 (by omega) (by omega)
  have e3 : ((r1 * 2 ^ 32 + r2) <<< 32) % 2 ^ 128 ||| r3 =
      (r1 * 2 ^ 32 + r2) * 2 ^ 32 + r3 :=
    lor_shift_step _ r3 (by omega) (by omega)
  have e4 : (((r1 * 2 ^ 32 + r2) * 2 ^ 32 + r3) <<< 32) % 2 ^ 128 ||| r4 =
      ((r1 * 2 ^ 32 + r2) * 2 ^ 32 + r3) * 2 ^ 32 + r4 :=
    lor_shift_step _ r4 (by nlinarith) (by omega)
  rw [step, e1, e2, e3, e4]
  simp only [Prod.mk.injEq]
  exact ⟨by ring, trivial⟩

/-- Witness for C8 at concrete inputs: ticks 0, seed 5 (nonzero, so no
reseed). -/
theorem random_four_rounds_witness :
    (5 : Nat) < 2 ^ 32 ∧
    (random 0 5 =
      (lcgRound (effSeed 0 5) * 2 ^ 96 +
        lcgRound (lcgRound (effSeed 0 5)) * 2 ^ 64 +
        lcgRound (lcgRound (lcgRound (effSeed 0 5))) * 2 ^ 32 +
        lcgRound (lcgRound (lcgRound (lcgRound (effSeed 0 5)))),
       lcgRound (lcgRound (lcgRound (lcgRound (effSeed 0 5))))) ∧
     ((5 : Nat) = 0 → effSeed 0 5 = 0 % 2 ^ 32) ∧
     ((5 : Nat) ≠ 0 → effSeed 0 5 = 5) ∧
     effSeed 0 5 * 48271 < 2 ^ 64 ∧
     lcgRound (effSeed 0 5) * 48271 < 2 ^ 64 ∧
     lcgRound (lcgRound (effSeed 0 5)) * 48271 < 2 ^ 64 ∧
     lcgRound (lcgRound (lcgRound (effSeed 0 5))) * 48271 < 2 ^ 64) :=
  ⟨by norm_num, random_four_rounds 0 5 (by norm_num)⟩
